import Mathlib

/-
  Verification development for the agoric-chat-bridge repository.

  Shallow embedding of the connection lifecycle / health-monitoring core:
    - src/adapters/base-adapter.ts        (BaseAdapter: health tracker)
    - src/adapters/telegram/telegram-adapter.ts (TelegramAdapter)
    - src/adapters/zalo/zalo-adapter.ts   (ZaloAdapter, singleton guard)
    - src/chat-integration.ts             (ChatIntegration orchestrator)

  Conventions of the embedding:
    - JavaScript string truthiness (undefined and the empty string are falsy)
      is modelled by optTruthy / orElseStr over Option String.
    - Timestamps are Nat (milliseconds); Date.now() is passed in as a plain
      argument named now.  A value built by new Date(..) is always an
      instance of Date in JS, so the instanceof check in the Telegram
      validator is identically true and the embedded timestamp is a Nat.
    - Promise-returning methods that can throw are embedded as
      Except String; the outcome of an underlying transport call that the
      source awaits is supplied as an explicit Bool argument (fails or not).
    - Logging calls have no observable effect and are dropped.
-/

/-- messageType enumeration from src/types/message.ts. -/
inductive MessageType where
  | text
  | image
  | file
  | audio
  | video
  | sticker
  | location
  deriving DecidableEq, Repr

/-- The wire string of a MessageType (the TS enum values, already lowercase,
so toLowerCase() is the identity on them). -/
def MessageType.str : MessageType → String
  | .text => "text"
  | .image => "image"
  | .file => "file"
  | .audio => "audio"
  | .video => "video"
  | .sticker => "sticker"
  | .location => "location"

/-- ChatPlatform enumeration from src/types/message.ts. -/
inductive ChatPlatform where
  | telegram
  | zaloPersonal
  | line
  | whatsapp
  | viber
  deriving DecidableEq, Repr

/-- The metadata record attached to a canonical Message.  The source uses an
untyped Record; the two adapters only ever populate these keys, kept here as
Option fields (none = key absent). -/
structure Metadata where
  threadId : Option String
  messageTypeStr : Option String
  chatId : Option Int
  chatType : Option String
  username : Option String
  deriving DecidableEq, Repr

/-- Canonical Message from src/types/message.ts. -/
structure Message where
  id : String
  content : String
  senderId : String
  senderName : String
  timestamp : Nat
  platform : ChatPlatform
  messageType : MessageType
  metadata : Metadata
  deriving DecidableEq, Repr

/-- Canonical ChatResponse from src/types/message.ts.  The orchestrator only
ever writes the mode / originalMessage metadata keys. -/
structure ChatResponse where
  content : String
  messageType : MessageType
  metaMode : Option String := none
  metaOriginalMessage : Option String := none
  deriving DecidableEq, Repr

/-- ConnectionHealth record (base adapter and Zalo adapter use the same
shape). -/
structure ConnectionHealth where
  isConnected : Bool
  lastHealthCheck : Nat
  consecutiveFailures : Nat
  lastError : Option String
  deriving DecidableEq, Repr

/-- JS String.prototype.trim: strip whitespace from both ends (structural
model; the built-in String.trim of Lean uses well-founded recursion and
does not evaluate inside proofs). -/
def jsTrim (s : String) : String :=
  String.mk
    (((s.data.dropWhile Char.isWhitespace).reverse.dropWhile
        Char.isWhitespace).reverse)

/-- JS truthiness of an optional string: undefined and the empty string are
falsy. -/
def optTruthy : Option String → Bool
  | some s => !s.isEmpty
  | none => false

/-- JS expression (a || dflt) for an optional string a. -/
def orElseStr (a : Option String) (dflt : String) : String :=
  match a with
  | some s => if s.isEmpty then dflt else s
  | none => dflt

/-- Outcome of an inbound-message handler: the payload was silently ignored,
an apology was sent to a destination, or the normalized message was handed to
the registered callback (with the destination a reply would be sent to). -/
inductive HandlerOutcome where
  | ignored
  | apology (text : String) (destination : String)
  | forwarded (msg : Message) (replyDestination : String)
  deriving DecidableEq, Repr

namespace BaseAdapter

/-- MAX_CONSECUTIVE_FAILURES from base-adapter.ts (= 5, fixed). -/
def maxConsecutiveFailures : Nat := 5

/-- BaseAdapter.isHealthy (base-adapter.ts lines 58-63). -/
def isHealthy (h : ConnectionHealth) : Bool :=
  h.isConnected && decide (h.consecutiveFailures < maxConsecutiveFailures)

/-- BaseAdapter.updateHealthStatus (base-adapter.ts lines 90-104).
The failure branch only records lastError behind a JS truthiness check
(if (error) ...), hence the isEmpty guard. -/
def updateHealthStatus (h : ConnectionHealth) (now : Nat) (success : Bool)
    (error : Option String) : ConnectionHealth :=
  if success then
    { h with lastHealthCheck := now, isConnected := true,
             consecutiveFailures := 0, lastError := none }
  else
    { h with lastHealthCheck := now, isConnected := false,
             consecutiveFailures := h.consecutiveFailures + 1,
             lastError :=
               match error with
               | some e => if e.isEmpty then h.lastError else some e
               | none => h.lastError }

end BaseAdapter

namespace TelegramAdapter

/-- Sender of a Telegram message (the from field of node-telegram-bot-api). -/
structure TgUser where
  id : Int
  isBot : Bool
  firstName : String
  lastName : Option String
  username : Option String
  deriving DecidableEq, Repr

/-- The slice of TelegramBot.Message the adapter reads.  Media objects are
modelled by their presence (and the subfields the adapter renders):
sticker carries its optional emoji, document its optional file_name,
location its rendered latitude / longitude numerals. -/
structure TelegramMessage where
  messageId : Nat
  fromUser : Option TgUser
  date : Nat
  chatId : Int
  chatType : String
  text : Option String
  caption : Option String
  sticker : Option (Option String)
  photo : Bool
  document : Option (Option String)
  audio : Bool
  video : Bool
  location : Option (String × String)
  deriving DecidableEq, Repr

/-- TelegramAdapter.extractMessageContent (telegram-adapter.ts, checks field
presence / string truthiness in source order). -/
def extractMessageContent (m : TelegramMessage) : String :=
  if optTruthy m.text then m.text.getD ""
  else if optTruthy m.caption then m.caption.getD ""
  else
    match m.sticker with
    | some emoji => orElseStr emoji "[Sticker]"
    | none =>
      if m.photo then "[Photo]"
      else
        match m.document with
        | some fileName => orElseStr fileName "[Document]"
        | none =>
          if m.audio then "[Audio]"
          else if m.video then "[Video]"
          else
            match m.location with
            | some (la, lo) => "[Location: " ++ la ++ ", " ++ lo ++ "]"
            | none => "[Unknown message type]"

/-- TelegramAdapter.getMessageType (telegram-adapter.ts, source order:
text, photo, document, audio, video, sticker, location, default text). -/
def getMessageType (m : TelegramMessage) : MessageType :=
  if optTruthy m.text then MessageType.text
  else if m.photo then MessageType.image
  else if m.document.isSome then MessageType.file
  else if m.audio then MessageType.audio
  else if m.video then MessageType.video
  else if m.sticker.isSome then MessageType.sticker
  else if m.location.isSome then MessageType.location
  else MessageType.text

/-- The canonical Message built inside TelegramAdapter.handleTelegramMessage.
senderId is from?.id.toString() || unknown; senderName applies string
truthiness to first_name and a ternary to last_name; metadata carries
chat_id, chat_type and username (and no threadId key). -/
def buildMessage (m : TelegramMessage) : Message :=
  { id := toString m.messageId
    content := extractMessageContent m
    senderId :=
      match m.fromUser with
      | some u => toString u.id
      | none => "unknown"
    senderName :=
      (match m.fromUser with
       | some u => if u.firstName.isEmpty then "Unknown" else u.firstName
       | none => "Unknown") ++
      (match m.fromUser with
       | some u =>
         match u.lastName with
         | some l => if l.isEmpty then "" else " " ++ l
         | none => ""
       | none => "")
    timestamp := m.date * 1000
    platform := ChatPlatform.telegram
    messageType := getMessageType m
    metadata :=
      { threadId := none, messageTypeStr := none,
        chatId := some m.chatId, chatType := some m.chatType,
        username := m.fromUser.bind TgUser.username } }

/-- TelegramAdapter.validateMessage (telegram-adapter.ts lines 560-568).
The timestamp instanceof Date conjunct is identically true on the handler
path (the timestamp is always built by new Date(..)) and is absorbed by the
Nat-timestamp embedding. -/
def validateMessage (msg : Message) : Bool :=
  !msg.content.isEmpty &&
  decide (0 < (jsTrim msg.content).length) &&
  msg.senderId != "unknown" &&
  decide (msg.content.length ≤ 4096)

/-- The apology text sent by TelegramAdapter on validation failure. -/
def telegramApology : String :=
  "Sorry, I cannot process your message. Please try again."

/-- TelegramAdapter.handleTelegramMessage (telegram-adapter.ts lines
404-450): no callback → return; bot sender → return; build the canonical
message; validation failure → apology to chat.id; else hand to the callback
and send any response to chat.id.toString(). -/
def handleTelegramMessage (hasCallback : Bool) (m : TelegramMessage) :
    HandlerOutcome :=
  if !hasCallback then HandlerOutcome.ignored
  else if (match m.fromUser with | some u => u.isBot | none => false) then
    HandlerOutcome.ignored
  else
    let msg := buildMessage m
    if !validateMessage msg then
      HandlerOutcome.apology telegramApology (toString m.chatId)
    else
      HandlerOutcome.forwarded msg (toString m.chatId)

/-- Mutable state of a TelegramAdapter instance: the bot handle, the public
isConnected flag, the health-check timer and the health record. -/
structure TgState where
  bot : Bool
  isConnected : Bool
  healthTimer : Bool
  health : ConnectionHealth
  deriving DecidableEq, Repr

/-- Outcome of an awaited transport teardown call (bot.stopPolling or a
listener stop); the caller supplies whether it fails. -/
def transportStop (fails : Bool) : Except String Unit :=
  if fails then Except.error "stopPolling failed" else Except.ok ()

/-- TelegramAdapter.disconnect (telegram-adapter.ts lines 301-313):
stop the timer, then await bot.stopPolling() with NO try/catch (a teardown
failure propagates out, leaving the bot handle and isConnected untouched);
on success release the bot, set isConnected false and call
updateHealthStatus(false). -/
def disconnect (now : Nat) (stopFails : Bool) (s : TgState) :
    Except String TgState :=
  let s1 : TgState := { s with healthTimer := false }
  if s1.bot then
    match transportStop stopFails with
    | Except.error e => Except.error e
    | Except.ok _ =>
        Except.ok
          { s1 with
            bot := false, isConnected := false,
            health := BaseAdapter.updateHealthStatus s1.health now false none }
  else
    Except.ok
      { s1 with
        isConnected := false,
        health := BaseAdapter.updateHealthStatus s1.health now false none }

/-- TelegramAdapter.forceShutdown (telegram-adapter.ts lines 315-331):
same teardown but stopPolling errors are caught and logged, so it never
throws. -/
def forceShutdown (now : Nat) (_stopFails : Bool) (s : TgState) : TgState :=
  { bot := false, isConnected := false, healthTimer := false,
    health := BaseAdapter.updateHealthStatus s.health now false none }

/-- TelegramAdapter.sendMessage (telegram-adapter.ts lines 333-368): throws
the not-connected error when the bot handle is absent or isConnected is
false; otherwise dispatches by messageType (all dispatch arms reach the
transport, whose failure is rethrown after a health update; the activity
bookkeeping on success is not observable to any claim and is dropped). -/
def sendMessage (s : TgState) (_userId : String) (_response : ChatResponse)
    (sendFails : Bool) : Except String Unit :=
  if !s.bot || !s.isConnected then
    Except.error "Telegram adapter is not connected"
  else if sendFails then Except.error "telegram send failed"
  else Except.ok ()

end TelegramAdapter

namespace ZaloAdapter

/-- The nested data envelope of the new Zalo payload shape.  msgId and
uidFrom are numbers in the wire format; the adapter only ever uses their
toString() image, kept here directly as optional strings.  ts is the
parseInt image of the ts field (none = missing or NaN). -/
structure ZaloDataEnvelope where
  msgId : Option String
  content : Option String
  uidFrom : Option String
  dName : Option String
  ts : Option Nat
  deriving DecidableEq, Repr

/-- The sender object of the legacy Zalo payload shape. -/
structure ZaloSender where
  id : Option String
  name : Option String
  deriving DecidableEq, Repr

/-- The slice of a raw Zalo payload the adapter reads.  photo and file are
modelled by presence. -/
structure ZaloPayload where
  data : Option ZaloDataEnvelope
  body : Option String
  text : Option String
  photo : Bool
  file : Bool
  id : Option String
  sender : Option ZaloSender
  threadID : Option String
  timestamp : Option Nat
  deriving DecidableEq, Repr

/-- threadID || sender?.id || unknown of the legacy shape (all already
strings after toString()). -/
def legacyThreadId (m : ZaloPayload) : String :=
  if optTruthy m.threadID then m.threadID.getD ""
  else if optTruthy (m.sender.bind ZaloSender.id) then
    (m.sender.bind ZaloSender.id).getD ""
  else "unknown"

/-- ZaloAdapter.normalizeMessage (zalo-adapter.ts lines 185-236).  The data
envelope shape always yields messageType text; the legacy shape derives
content / messageType from body-or-text, then photo, then file, with a
fallback placeholder. -/
def normalizeMessage (m : ZaloPayload) (now : Nat) : Message :=
  match m.data with
  | some d =>
      { id := orElseStr d.msgId (toString now)
        content := orElseStr d.content "[Empty message]"
        senderId := orElseStr d.uidFrom "unknown"
        senderName := orElseStr d.dName "Unknown Sender"
        timestamp :=
          match d.ts with
          | some t => if t == 0 then now else t
          | none => now
        platform := ChatPlatform.zaloPersonal
        messageType := MessageType.text
        metadata :=
          { threadId := some (orElseStr d.uidFrom "unknown")
            messageTypeStr := some "text"
            chatId := none, chatType := none, username := none } }
  | none =>
      let ct : String × MessageType :=
        if optTruthy m.body || optTruthy m.text then
          (if optTruthy m.body then m.body.getD "" else m.text.getD "",
           MessageType.text)
        else if m.photo then ("[Image message]", MessageType.image)
        else if m.file then ("[File message]", MessageType.file)
        else ("[Unsupported message type]", MessageType.text)
      { id := orElseStr m.id (toString now)
        content := ct.1
        senderId := orElseStr (m.sender.bind ZaloSender.id) "unknown"
        senderName := orElseStr (m.sender.bind ZaloSender.name) "Unknown Sender"
        timestamp :=
          match m.timestamp with
          | some t => if t == 0 then now else t
          | none => now
        platform := ChatPlatform.zaloPersonal
        messageType := ct.2
        metadata :=
          { threadId := some (legacyThreadId m)
            messageTypeStr := some ct.2.str
            chatId := none, chatType := none, username := none } }

/-- The sender-presence pre-check of handleZaloMessage:
zaloMessage.data?.uidFrom || zaloMessage.sender?.id (JS truthiness). -/
def hasValidSender (m : ZaloPayload) : Bool :=
  optTruthy (m.data.bind ZaloDataEnvelope.uidFrom) ||
  optTruthy (m.sender.bind ZaloSender.id)

/-- ZaloAdapter.validateMessage (zalo-adapter.ts lines 336-350). -/
def validateMessage (msg : Message) : Bool :=
  if msg.content.isEmpty || (jsTrim msg.content).length == 0 then false
  else if msg.senderId.isEmpty || msg.senderId == "unknown" then false
  else if msg.content.length > 4096 then false
  else true

/-- The localized apology sent by ZaloAdapter on validation failure. -/
def zaloApology : String :=
  "Xin lỗi, tôi không thể xử lý tin nhắn của bạn. Vui lòng thử lại."

/-- sendErrorResponse destination:
originalMessage.metadata?.threadId || originalMessage.senderId. -/
def errorDestination (msg : Message) : String :=
  match msg.metadata.threadId with
  | some t => if t.isEmpty then msg.senderId else t
  | none => msg.senderId

/-- Reply destination of the success path: the send is guarded by
normalizedMessage.metadata?.threadId, which the normalizer always populates
with a non-empty string. -/
def replyDestination (msg : Message) : String :=
  (msg.metadata.threadId).getD ""

/-- ZaloAdapter.handleZaloMessage (zalo-adapter.ts lines 241-280): missing
callback or missing sender identifier → silently return; validation failure
→ localized apology via sendErrorResponse; else hand the normalized message
to the callback and send any response to metadata.threadId. -/
def handleZaloMessage (hasCallback : Bool) (m : ZaloPayload) (now : Nat) :
    HandlerOutcome :=
  if !hasCallback then HandlerOutcome.ignored
  else if !hasValidSender m then HandlerOutcome.ignored
  else
    let msg := normalizeMessage m now
    if !validateMessage msg then
      HandlerOutcome.apology zaloApology (errorDestination msg)
    else
      HandlerOutcome.forwarded msg (replyDestination msg)

/-- Mutable state of a ZaloAdapter instance: the api handle and its
listener, the zalo client object, the public isConnected flag, the shutdown
flag, the health-check timer and the health record. -/
structure ZaloState where
  api : Bool
  listener : Bool
  zalo : Bool
  isConnected : Bool
  isShutdown : Bool
  healthTimer : Bool
  health : ConnectionHealth
  deriving DecidableEq, Repr

/-- ZaloAdapter.updateHealthStatus (zalo-adapter.ts lines 396-407): same as
the base tracker but with no error parameter (lastError is only cleared on
success, never written on failure here). -/
def updateHealthStatus (h : ConnectionHealth) (now : Nat) (success : Bool) :
    ConnectionHealth :=
  if success then
    { h with lastHealthCheck := now, isConnected := true,
             consecutiveFailures := 0, lastError := none }
  else
    { h with lastHealthCheck := now, isConnected := false,
             consecutiveFailures := h.consecutiveFailures + 1 }

/-- ZaloAdapter.isHealthy (zalo-adapter.ts lines 100-103): same formula as
the base adapter over the Zalo-owned health record. -/
def isHealthyState (s : ZaloState) : Bool :=
  BaseAdapter.isHealthy s.health

/-- The common teardown tail of forceShutdown and disconnect: stop the
timer, null out api and zalo, clear both connected flags, mark shutdown
(the globalInstance slot is cleared by the caller model in create). -/
def shutdownCleanup (s : ZaloState) : ZaloState :=
  { api := false, listener := false, zalo := false,
    isConnected := false, isShutdown := true, healthTimer := false,
    health := { s.health with isConnected := false } }

/-- ZaloAdapter.forceShutdown (zalo-adapter.ts lines 452-477): listener
stop errors are caught and logged, so the teardown always completes and
never throws. -/
def forceShutdown (_stopFails : Bool) (s : ZaloState) : ZaloState :=
  shutdownCleanup s

/-- ZaloAdapter.disconnect (zalo-adapter.ts lines 482-513): returns
immediately when already shut down; otherwise the same teardown as
forceShutdown, with the listener stop error caught and logged (the result
does not depend on whether the transport teardown fails). -/
def disconnect (stopFails : Bool) (s : ZaloState) : Except String ZaloState :=
  if s.isShutdown then Except.ok s
  else
    match TelegramAdapter.transportStop stopFails with
    | Except.error _ => Except.ok (shutdownCleanup s)
    | Except.ok _ => Except.ok (shutdownCleanup s)

/-- ZaloAdapter.sendMessage (zalo-adapter.ts lines 285-300): throws the
not-connected error when the api handle is absent or isConnected is false;
an api.sendMessage failure is logged and rethrown. -/
def sendMessage (s : ZaloState) (_userId : String) (_response : ChatResponse)
    (sendFails : Bool) : Except String Unit :=
  if !s.api || !s.isConnected then
    Except.error "Zalo adapter is not connected"
  else if sendFails then Except.error "zalo send failed"
  else Except.ok ()

end ZaloAdapter

/-- An adapter instance in the singleton registry; instId is the JS object
identity used to compare returned references. -/
structure ZaloInst where
  instId : Nat
  state : ZaloAdapter.ZaloState
  deriving DecidableEq, Repr

/-- Result of one ZaloAdapter.create call: the registry slot afterwards, the
returned reference (none = null), how many connection handshakes were
attempted, and the final states of the replaced old instance and of a
discarded failed new instance (none = no such instance). -/
structure CreateResult where
  registry : Option ZaloInst
  returned : Option ZaloInst
  connectionsAttempted : Nat
  replacedOld : Option ZaloAdapter.ZaloState
  discardedNew : Option ZaloAdapter.ZaloState
  deriving DecidableEq, Repr

namespace ZaloAdapter

/-- State of a freshly constructed ZaloAdapter (the private constructor). -/
def initialState : ZaloState :=
  { api := false, listener := false, zalo := true,
    isConnected := false, isShutdown := false, healthTimer := false,
    health := { isConnected := false, lastHealthCheck := 0,
                consecutiveFailures := 0, lastError := none } }

/-- State after a successful initialize(): connectToZalo set the api handle,
started the listener and set isConnected; initialize started the health
timer and marked the tracker healthy. -/
def connectedState (now : Nat) : ZaloState :=
  { api := true, listener := true, zalo := true,
    isConnected := true, isShutdown := false, healthTimer := true,
    health := { isConnected := true, lastHealthCheck := now,
                consecutiveFailures := 0, lastError := none } }

/-- State after a failed initialize() (the login threw with message e):
nothing was connected, the tracker records the failure. -/
def initFailedState (e : String) : ZaloState :=
  { initialState with
    health :=
      { initialState.health with
        isConnected := false, lastError := some e } }

/-- The construct-and-initialize tail of ZaloAdapter.create: a constructor
throw (invalid config) is caught and yields null with nothing registered and
no connection attempted; a successful initialize registers the connected
instance; a failed initialize force-shuts the half-initialized instance down
and yields null. -/
def createNew (freshId now : Nat) (configValid initOk : Bool) (e : String) :
    CreateResult :=
  if !configValid then
    { registry := none, returned := none, connectionsAttempted := 0,
      replacedOld := none, discardedNew := none }
  else if initOk then
    let inst : ZaloInst := { instId := freshId, state := connectedState now }
    { registry := some inst, returned := some inst, connectionsAttempted := 1,
      replacedOld := none, discardedNew := none }
  else
    { registry := none, returned := none, connectionsAttempted := 1,
      replacedOld := none,
      discardedNew := some (forceShutdown true (initFailedState e)) }

/-- ZaloAdapter.create (zalo-adapter.ts lines 32-65): a live healthy
registered instance is returned unchanged with no connection attempt; an
unhealthy or shut-down one is force-shut down and the slot cleared before a
new adapter is constructed and initialized. -/
def create (registry : Option ZaloInst) (freshId now : Nat)
    (configValid initOk : Bool) (e : String) : CreateResult :=
  match registry with
  | some inst =>
      if !inst.state.isShutdown && isHealthyState inst.state then
        { registry := some inst, returned := some inst,
          connectionsAttempted := 0, replacedOld := none, discardedNew := none }
      else
        let r := createNew freshId now configValid initOk e
        { r with replacedOld := some (forceShutdown true inst.state) }
  | none => createNew freshId now configValid initOk e

end ZaloAdapter

namespace ChatIntegration

/-- ChatIntegration.handleMessage (chat-integration.ts lines 129-162),
returning the response and whether the Mastra agent was called.  When
REPEAT_MODE is set the handler returns before any agent call with content
Echo-prefixed; otherwise the agent result is relayed, an agent failure being
converted to a generic apology. -/
def handleMessage (repeatMode : Bool) (msg : Message)
    (agentResult : Except String ChatResponse) : ChatResponse × Bool :=
  if repeatMode then
    ({ content := "Echo: " ++ msg.content,
       messageType := msg.messageType,
       metaMode := some "repeat",
       metaOriginalMessage := some msg.content }, false)
  else
    match agentResult with
    | Except.ok r => (r, true)
    | Except.error _ =>
        ({ content := "Sorry, I encountered an error processing your message. Please try again.",
           messageType := msg.messageType,
           metaMode := none, metaOriginalMessage := none }, true)

end ChatIntegration

/-- C1: a health update with success sets isConnected, resets
consecutiveFailures to 0, clears lastError and stamps lastHealthCheck;
a failing update clears isConnected, increments consecutiveFailures,
records lastError when a (non-empty, JS-truthy) error string is provided and
stamps lastHealthCheck; after any run of consecutive failures one success
leaves consecutiveFailures at 0 and isConnected true.  The Zalo variant of
the tracker behaves the same (it has no error parameter, so lastError is
left untouched on failure). -/
theorem C1_health_update :
    ∀ (h : ConnectionHealth) (now : Nat) (e : String),
      (∀ err : Option String,
        BaseAdapter.updateHealthStatus h now true err =
          { isConnected := true, lastHealthCheck := now,
            consecutiveFailures := 0, lastError := none }) ∧
      (e.isEmpty = false →
        BaseAdapter.updateHealthStatus h now false (some e) =
          { isConnected := false, lastHealthCheck := now,
            consecutiveFailures := h.consecutiveFailures + 1,
            lastError := some e }) ∧
      (BaseAdapter.updateHealthStatus h now false none =
          { isConnected := false, lastHealthCheck := now,
            consecutiveFailures := h.consecutiveFailures + 1,
            lastError := h.lastError }) ∧
      (∀ n : Nat,
        BaseAdapter.updateHealthStatus
          ((fun hh => BaseAdapter.updateHealthStatus hh now false none)^[n] h)
          now true none =
          { isConnected := true, lastHealthCheck := now,
            consecutiveFailures := 0, lastError := none }) ∧
      (ZaloAdapter.updateHealthStatus h now true =
          { isConnected := true, lastHealthCheck := now,
            consecutiveFailures := 0, lastError := none }) ∧
      (ZaloAdapter.updateHealthStatus h now false =
          { isConnected := false, lastHealthCheck := now,
            consecutiveFailures := h.consecutiveFailures + 1,
            lastError := h.lastError }) := by
  intro h now e
  refine ⟨fun err => rfl, fun he => ?_, rfl, fun n => rfl, rfl, rfl⟩
  simp [BaseAdapter.updateHealthStatus, he]

/-- C1 witness: a concrete failing update with error string boom on a
tracker with 4 prior failures. -/
theorem C1_health_update_witness :
    ("boom" : String).isEmpty = false ∧
    BaseAdapter.updateHealthStatus
      { isConnected := true, lastHealthCheck := 1,
        consecutiveFailures := 4, lastError := none } 9 false (some "boom") =
      { isConnected := false, lastHealthCheck := 9,
        consecutiveFailures := 5, lastError := some "boom" } :=
  ⟨by decide,
   (C1_health_update
      { isConnected := true, lastHealthCheck := 1,
        consecutiveFailures := 4, lastError := none } 9 "boom").2.1 (by decide)⟩

/-- C2: isHealthy is exactly isConnected together with strictly fewer than
5 consecutive failures, and is false whenever consecutiveFailures is at
least 5, for every tracker state; the Zalo adapter computes the same
predicate on its own record. -/
theorem C2_isHealthy_spec :
    ∀ h : ConnectionHealth,
      (BaseAdapter.isHealthy h = true ↔
        (h.isConnected = true ∧ h.consecutiveFailures < 5)) ∧
      (5 ≤ h.consecutiveFailures → BaseAdapter.isHealthy h = false) ∧
      (∀ s : ZaloAdapter.ZaloState,
        ZaloAdapter.isHealthyState s = BaseAdapter.isHealthy s.health) := by
  intro h
  refine ⟨?_, fun hge => ?_, fun s => rfl⟩
  · simp [BaseAdapter.isHealthy, BaseAdapter.maxConsecutiveFailures]
  · cases hc : h.isConnected <;>
      simp [BaseAdapter.isHealthy, BaseAdapter.maxConsecutiveFailures, hc]
    omega

/-- C2 witness: a tracker that is connected but has 7 consecutive failures
is not healthy. -/
theorem C2_isHealthy_witness :
    5 ≤ (7 : Nat) ∧
    BaseAdapter.isHealthy
      { isConnected := true, lastHealthCheck := 0,
        consecutiveFailures := 7, lastError := none } = false :=
  ⟨by decide,
   (C2_isHealthy_spec
      { isConnected := true, lastHealthCheck := 0,
        consecutiveFailures := 7, lastError := none }).2.1 (by decide)⟩

/-- A validated message has content of at most 4096 characters (Zalo
validator). -/
theorem zalo_validate_length_le (msg : Message) :
    ZaloAdapter.validateMessage msg = true → msg.content.length ≤ 4096 := by
  unfold ZaloAdapter.validateMessage
  split_ifs with h1 h2 h3 <;> simp_all

/-- A validated message has content of at most 4096 characters (Telegram
validator). -/
theorem telegram_validate_length_le (msg : Message) :
    TelegramAdapter.validateMessage msg = true → msg.content.length ≤ 4096 := by
  unfold TelegramAdapter.validateMessage
  intro h
  simp only [Bool.and_eq_true, decide_eq_true_eq] at h
  exact h.2

/-- Inversion of the Zalo handler: a forwarded outcome means the normalized
message passed validation and is the forwarded message. -/
theorem zalo_forwarded_inv (cb : Bool) (m : ZaloAdapter.ZaloPayload)
    (now : Nat) (msg : Message) (d : String) :
    ZaloAdapter.handleZaloMessage cb m now = HandlerOutcome.forwarded msg d →
    ZaloAdapter.validateMessage (ZaloAdapter.normalizeMessage m now) = true ∧
      msg = ZaloAdapter.normalizeMessage m now ∧
      d = ZaloAdapter.replyDestination (ZaloAdapter.normalizeMessage m now) := by
  intro h
  simp only [ZaloAdapter.handleZaloMessage] at h
  split_ifs at h
  simp_all
  rw [← h.1]
  exact h.2.symm

/-- Inversion of the Telegram handler: a forwarded outcome means the built
message passed validation, is the forwarded message, and the reply goes to
chat.id. -/
theorem telegram_forwarded_inv (cb : Bool)
    (tm : TelegramAdapter.TelegramMessage) (msg : Message) (d : String) :
    TelegramAdapter.handleTelegramMessage cb tm =
      HandlerOutcome.forwarded msg d →
    TelegramAdapter.validateMessage (TelegramAdapter.buildMessage tm) = true ∧
      msg = TelegramAdapter.buildMessage tm ∧ d = toString tm.chatId := by
  intro h
  simp only [TelegramAdapter.handleTelegramMessage] at h
  split_ifs at h
  simp_all

/-- C3: a normalized inbound message reaches the registered handler only
when it passes the validation gate; any payload whose extracted content
exceeds 4096 characters is never forwarded; and a payload that reaches the
gate (handler registered, sender identifier present, and for Telegram a
non-bot sender) but fails validation is answered with the localized apology
instead. -/
theorem C3_validation_gate :
    ∀ (cb : Bool) (m : ZaloAdapter.ZaloPayload) (now : Nat)
      (tm : TelegramAdapter.TelegramMessage),
      (∀ msg d,
        ZaloAdapter.handleZaloMessage cb m now =
          HandlerOutcome.forwarded msg d →
        ZaloAdapter.validateMessage (ZaloAdapter.normalizeMessage m now) = true ∧
          msg = ZaloAdapter.normalizeMessage m now) ∧
      ((ZaloAdapter.normalizeMessage m now).content.length > 4096 →
        ∀ msg d, ZaloAdapter.handleZaloMessage cb m now ≠
          HandlerOutcome.forwarded msg d) ∧
      (ZaloAdapter.hasValidSender m = true →
        ZaloAdapter.validateMessage (ZaloAdapter.normalizeMessage m now) = false →
        ZaloAdapter.handleZaloMessage true m now =
          HandlerOutcome.apology ZaloAdapter.zaloApology
            (ZaloAdapter.errorDestination (ZaloAdapter.normalizeMessage m now))) ∧
      (∀ msg d,
        TelegramAdapter.handleTelegramMessage cb tm =
          HandlerOutcome.forwarded msg d →
        TelegramAdapter.validateMessage (TelegramAdapter.buildMessage tm) = true ∧
          msg = TelegramAdapter.buildMessage tm) ∧
      ((TelegramAdapter.buildMessage tm).content.length > 4096 →
        ∀ msg d, TelegramAdapter.handleTelegramMessage cb tm ≠
          HandlerOutcome.forwarded msg d) ∧
      ((match tm.fromUser with | some u => u.isBot | none => false) = false →
        TelegramAdapter.validateMessage (TelegramAdapter.buildMessage tm) = false →
        TelegramAdapter.handleTelegramMessage true tm =
          HandlerOutcome.apology TelegramAdapter.telegramApology
            (toString tm.chatId)) := by
  intro cb m now tm
  refine ⟨fun msg d h => ?_, fun hlen msg d h => ?_, fun hs hv => ?_,
          fun msg d h => ?_, fun hlen msg d h => ?_, fun hb hv => ?_⟩
  · exact ⟨(zalo_forwarded_inv cb m now msg d h).1,
           (zalo_forwarded_inv cb m now msg d h).2.1⟩
  · have hval := (zalo_forwarded_inv cb m now msg d h).1
    have := zalo_validate_length_le _ hval
    omega
  · unfold ZaloAdapter.handleZaloMessage
    simp [hs, hv]
  · exact ⟨(telegram_forwarded_inv cb tm msg d h).1,
           (telegram_forwarded_inv cb tm msg d h).2.1⟩
  · have hval := (telegram_forwarded_inv cb tm msg d h).1
    have := telegram_validate_length_le _ hval
    omega
  · unfold TelegramAdapter.handleTelegramMessage
    simp [hb, hv]

/-- Content of 4100 characters, above the 4096-character ceiling. -/
def longContent : String := String.replicate 4100 'a'

/-- longContent is JS-truthy (non-empty). -/
theorem longContent_not_isEmpty : longContent.isEmpty = false := by
  rw [Bool.eq_false_iff]
  intro h
  have he : longContent = "" := (String.isEmpty_iff _).mp h
  have := congrArg String.length he
  simp [longContent] at this

/-- Envelope-shape Zalo payload with a valid sender and over-long content. -/
def zaloLongPayload : ZaloAdapter.ZaloPayload :=
  { data := some { msgId := some "1", content := some longContent,
                   uidFrom := some "u1", dName := none, ts := none },
    body := none, text := none, photo := false, file := false,
    id := none, sender := none, threadID := none, timestamp := none }

/-- Envelope-shape Zalo payload with a valid sender whose content is blank
after trimming. -/
def zaloBlankPayload : ZaloAdapter.ZaloPayload :=
  { data := some { msgId := some "2", content := some " ",
                   uidFrom := some "u1", dName := none, ts := none },
    body := none, text := none, photo := false, file := false,
    id := none, sender := none, threadID := none, timestamp := none }

/-- The normalized over-long Zalo payload keeps its 4100-character
content. -/
theorem zaloLongPayload_content_length :
    (ZaloAdapter.normalizeMessage zaloLongPayload 0).content.length > 4096 := by
  have hc : (ZaloAdapter.normalizeMessage zaloLongPayload 0).content =
      longContent := by
    simp only [ZaloAdapter.normalizeMessage, zaloLongPayload, orElseStr,
               longContent_not_isEmpty, Bool.false_eq_true, if_false]
  rw [hc]
  simp [longContent]

/-- Telegram message from a non-bot user whose text is blank after
trimming. -/
def tgBlankMessage : TelegramAdapter.TelegramMessage :=
  { messageId := 4,
    fromUser := some { id := 3, isBot := false, firstName := "Al",
                       lastName := none, username := none },
    date := 0, chatId := 3, chatType := "private",
    text := some " ", caption := none, sticker := none, photo := false,
    document := none, audio := false, video := false, location := none }

/-- C3 witness: the over-long Zalo payload is not forwarded, the blank Zalo
payload gets the localized apology, and the blank Telegram message gets the
Telegram apology. -/
theorem C3_validation_gate_witness :
    ((ZaloAdapter.normalizeMessage zaloLongPayload 0).content.length > 4096 ∧
      ZaloAdapter.handleZaloMessage true zaloLongPayload 0 ≠
        HandlerOutcome.forwarded
          (ZaloAdapter.normalizeMessage zaloLongPayload 0) "u1") ∧
    (ZaloAdapter.handleZaloMessage true zaloBlankPayload 0 =
      HandlerOutcome.apology ZaloAdapter.zaloApology
        (ZaloAdapter.errorDestination
          (ZaloAdapter.normalizeMessage zaloBlankPayload 0))) ∧
    (TelegramAdapter.handleTelegramMessage true tgBlankMessage =
      HandlerOutcome.apology TelegramAdapter.telegramApology
        (toString tgBlankMessage.chatId)) :=
  ⟨⟨zaloLongPayload_content_length,
    (C3_validation_gate true zaloLongPayload 0 tgBlankMessage).2.1
      zaloLongPayload_content_length _ _⟩,
   (C3_validation_gate true zaloBlankPayload 0 tgBlankMessage).2.2.1
     (by decide) (by decide),
   (C3_validation_gate true zaloBlankPayload 0 tgBlankMessage).2.2.2.2.2
     (by decide) (by decide)⟩

/-- C4: sendMessage fails with the not-connected error whenever isConnected
is false or the connection handle is absent, for both adapters; in
particular every sendMessage call after forceShutdown fails with that
error. -/
theorem C4_sendMessage_not_connected :
    ∀ (s : ZaloAdapter.ZaloState) (t : TelegramAdapter.TgState)
      (uid : String) (r : ChatResponse) (f sf : Bool) (now : Nat),
      (s.isConnected = false →
        ZaloAdapter.sendMessage s uid r f =
          Except.error "Zalo adapter is not connected") ∧
      (s.api = false →
        ZaloAdapter.sendMessage s uid r f =
          Except.error "Zalo adapter is not connected") ∧
      (ZaloAdapter.sendMessage (ZaloAdapter.forceShutdown sf s) uid r f =
        Except.error "Zalo adapter is not connected") ∧
      (t.isConnected = false →
        TelegramAdapter.sendMessage t uid r f =
          Except.error "Telegram adapter is not connected") ∧
      (t.bot = false →
        TelegramAdapter.sendMessage t uid r f =
          Except.error "Telegram adapter is not connected") ∧
      (TelegramAdapter.sendMessage
          (TelegramAdapter.forceShutdown now sf t) uid r f =
        Except.error "Telegram adapter is not connected") := by
  intro s t uid r f sf now
  refine ⟨fun h => ?_, fun h => ?_, ?_, fun h => ?_, fun h => ?_, ?_⟩ <;>
    simp [ZaloAdapter.sendMessage, TelegramAdapter.sendMessage,
          ZaloAdapter.forceShutdown, ZaloAdapter.shutdownCleanup,
          TelegramAdapter.forceShutdown, *]

/-- C4 witness: sending through a force-shut-down Zalo adapter that was
fully connected fails with the not-connected error. -/
theorem C4_sendMessage_not_connected_witness :
    (ZaloAdapter.shutdownCleanup (ZaloAdapter.connectedState 3)).isConnected =
      false ∧
    ZaloAdapter.sendMessage
        (ZaloAdapter.shutdownCleanup (ZaloAdapter.connectedState 3))
        "u1" { content := "hi", messageType := MessageType.text } false =
      Except.error "Zalo adapter is not connected" :=
  ⟨by decide,
   (C4_sendMessage_not_connected
      (ZaloAdapter.shutdownCleanup (ZaloAdapter.connectedState 3))
      { bot := true, isConnected := true, healthTimer := true,
        health := { isConnected := true, lastHealthCheck := 0,
                    consecutiveFailures := 0, lastError := none } }
      "u1" { content := "hi", messageType := MessageType.text }
      false false 0).1 (by decide)⟩

/-- C5: the singleton guard returns a live healthy registered instance
unchanged with no new connection (so two successive create calls return the
identical instance); an unhealthy or shut-down instance is force-shut down
before a new adapter is built; and a failed initialization leaves the
half-initialized instance force-shut down with null returned and nothing
registered. -/
theorem C5_create_guard :
    ∀ (inst : ZaloInst) (freshId now : Nat) (cfgOk initOk : Bool)
      (e : String),
      (inst.state.isShutdown = false →
        ZaloAdapter.isHealthyState inst.state = true →
        ZaloAdapter.create (some inst) freshId now cfgOk initOk e =
          { registry := some inst, returned := some inst,
            connectionsAttempted := 0, replacedOld := none,
            discardedNew := none } ∧
        (ZaloAdapter.create
            (ZaloAdapter.create (some inst) freshId now cfgOk initOk e).registry
            freshId now cfgOk initOk e).returned = some inst) ∧
      (inst.state.isShutdown = true ∨
          ZaloAdapter.isHealthyState inst.state = false →
        (ZaloAdapter.create (some inst) freshId now cfgOk initOk e).replacedOld =
          some (ZaloAdapter.forceShutdown true inst.state) ∧
        (ZaloAdapter.forceShutdown true inst.state).isShutdown = true ∧
        (ZaloAdapter.create (some inst) freshId now cfgOk initOk e).registry =
          (ZaloAdapter.createNew freshId now cfgOk initOk e).registry ∧
        (ZaloAdapter.create (some inst) freshId now cfgOk initOk e).returned =
          (ZaloAdapter.createNew freshId now cfgOk initOk e).returned) ∧
      ((ZaloAdapter.create none freshId now true false e).returned = none ∧
        (ZaloAdapter.create none freshId now true false e).registry = none ∧
        (ZaloAdapter.create none freshId now true false e).discardedNew =
          some (ZaloAdapter.forceShutdown true
            (ZaloAdapter.initFailedState e)) ∧
        (ZaloAdapter.forceShutdown true
          (ZaloAdapter.initFailedState e)).isShutdown = true ∧
        (ZaloAdapter.forceShutdown true
          (ZaloAdapter.initFailedState e)).isConnected = false) := by
  intro inst freshId now cfgOk initOk e
  refine ⟨fun hs hh => ?_, fun hu => ?_, ?_⟩
  · constructor <;>
      simp [ZaloAdapter.create, hs, hh]
  · have hcond : (!inst.state.isShutdown &&
        ZaloAdapter.isHealthyState inst.state) = false := by
      rcases hu with hu | hu <;> simp [hu]
    simp [ZaloAdapter.create, hcond, ZaloAdapter.forceShutdown,
          ZaloAdapter.shutdownCleanup]
  · simp [ZaloAdapter.create, ZaloAdapter.createNew,
          ZaloAdapter.forceShutdown, ZaloAdapter.shutdownCleanup]

/-- C5 witness: a healthy connected registered instance is returned
identically by two successive create calls. -/
theorem C5_create_guard_witness :
    ({ instId := 1, state := ZaloAdapter.connectedState 3 } :
        ZaloInst).state.isShutdown = false ∧
    ZaloAdapter.create
        (some { instId := 1, state := ZaloAdapter.connectedState 3 })
        2 9 true true "boom" =
      { registry := some { instId := 1, state := ZaloAdapter.connectedState 3 },
        returned := some { instId := 1, state := ZaloAdapter.connectedState 3 },
        connectionsAttempted := 0, replacedOld := none,
        discardedNew := none } :=
  ⟨by decide,
   ((C5_create_guard { instId := 1, state := ZaloAdapter.connectedState 3 }
      2 9 true true "boom").1 (by decide) (by decide)).1⟩

/-- Telegram message carrying both a document and a photo (and no text). -/
def tgDocAndPhoto : TelegramAdapter.TelegramMessage :=
  { messageId := 1,
    fromUser := some { id := 9, isBot := false, firstName := "Bob",
                       lastName := none, username := none },
    date := 0, chatId := 5, chatType := "private",
    text := none, caption := none, sticker := none,
    photo := true, document := some (some "a.pdf"),
    audio := false, video := false, location := none }

/-- C6 counterexample: on a payload carrying both a document and a photo
the code derives messageType image (photo is checked before document), so
the priority order document before photo stated by the claim is wrong. -/
theorem C6_priority_counterexample :
    TelegramAdapter.getMessageType tgDocAndPhoto = MessageType.image ∧
    MessageType.image ≠ MessageType.file := by decide

/-- Telegram message carrying only a photo, from a valid sender. -/
def tgPhotoOnly : TelegramAdapter.TelegramMessage :=
  { messageId := 3,
    fromUser := some { id := 8, isBot := false, firstName := "Cam",
                       lastName := none, username := none },
    date := 2, chatId := 5, chatType := "private",
    text := none, caption := none, sticker := none,
    photo := true, document := none,
    audio := false, video := false, location := none }

/-- C6 amended: the derived messageType follows the priority order
text, photo, document, audio, video, sticker, location (text first, not
richest-content first); non-text types produce placeholder content when no
caption text is present; and a payload carrying only a photo and a valid
sender normalizes to content [Photo] with messageType image and is
forwarded.  The Zalo legacy shape orders body-or-text, photo, file. -/
theorem C6_message_type_priority :
    ∀ (m : TelegramAdapter.TelegramMessage) (zm : ZaloAdapter.ZaloPayload)
      (now : Nat),
      (optTruthy m.text = true →
        TelegramAdapter.getMessageType m = MessageType.text) ∧
      (optTruthy m.text = false → m.photo = true →
        TelegramAdapter.getMessageType m = MessageType.image) ∧
      (optTruthy m.text = false → m.photo = false → m.document.isSome = true →
        TelegramAdapter.getMessageType m = MessageType.file) ∧
      (optTruthy m.text = false → m.photo = false → m.document = none →
        m.audio = true →
        TelegramAdapter.getMessageType m = MessageType.audio) ∧
      (optTruthy m.text = false → m.photo = false → m.document = none →
        m.audio = false → m.video = true →
        TelegramAdapter.getMessageType m = MessageType.video) ∧
      (optTruthy m.text = false → m.photo = false → m.document = none →
        m.audio = false → m.video = false → m.sticker.isSome = true →
        TelegramAdapter.getMessageType m = MessageType.sticker) ∧
      (optTruthy m.text = false → m.photo = false → m.document = none →
        m.audio = false → m.video = false → m.sticker = none →
        m.location.isSome = true →
        TelegramAdapter.getMessageType m = MessageType.location) ∧
      (optTruthy m.text = false → optTruthy m.caption = false →
        m.sticker = none → m.photo = true →
        TelegramAdapter.extractMessageContent m = "[Photo]") ∧
      (TelegramAdapter.handleTelegramMessage true tgPhotoOnly =
        HandlerOutcome.forwarded (TelegramAdapter.buildMessage tgPhotoOnly)
          "5" ∧
       (TelegramAdapter.buildMessage tgPhotoOnly).content = "[Photo]" ∧
       (TelegramAdapter.buildMessage tgPhotoOnly).messageType =
         MessageType.image) ∧
      (zm.data = none → optTruthy zm.body = false → optTruthy zm.text = false →
        zm.photo = true →
        (ZaloAdapter.normalizeMessage zm now).content = "[Image message]" ∧
        (ZaloAdapter.normalizeMessage zm now).messageType =
          MessageType.image) := by
  intro m zm now
  refine ⟨fun h1 => ?_, fun h1 h2 => ?_, fun h1 h2 h3 => ?_,
          fun h1 h2 h3 h4 => ?_, fun h1 h2 h3 h4 h5 => ?_,
          fun h1 h2 h3 h4 h5 h6 => ?_, fun h1 h2 h3 h4 h5 h6 h7 => ?_,
          fun h1 h2 h3 h4 => ?_, ⟨by decide, by decide, by decide⟩,
          fun h1 h2 h3 h4 => ?_⟩ <;>
    simp [TelegramAdapter.getMessageType, TelegramAdapter.extractMessageContent,
          ZaloAdapter.normalizeMessage, *]

/-- C6 amended witness: a text message is typed text even when a photo is
attached (text priority beats photo), and the photo-only scenario holds. -/
theorem C6_message_type_priority_witness :
    optTruthy (some "hi") = true ∧
    TelegramAdapter.getMessageType
      { tgDocAndPhoto with text := some "hi" } = MessageType.text :=
  ⟨by decide,
   (C6_message_type_priority { tgDocAndPhoto with text := some "hi" }
     zaloBlankPayload 0).1 (by decide)⟩

/-- A live Telegram adapter state. -/
def tgLiveState : TelegramAdapter.TgState :=
  { bot := true, isConnected := true, healthTimer := true,
    health := { isConnected := true, lastHealthCheck := 0,
                consecutiveFailures := 0, lastError := none } }

/-- C7 counterexample: TelegramAdapter.disconnect propagates a transport
teardown failure (it throws), and on an already-disconnected state a second
disconnect call is not a no-op: it increments consecutiveFailures again. -/
theorem C7_disconnect_counterexample :
    TelegramAdapter.disconnect 5 true tgLiveState =
      Except.error "stopPolling failed" ∧
    (match
        TelegramAdapter.disconnect 6 false
          { bot := false, isConnected := false, healthTimer := false,
            health := { isConnected := false, lastHealthCheck := 5,
                        consecutiveFailures := 1, lastError := none } } with
      | Except.ok s2 => s2.health.consecutiveFailures
      | Except.error _ => 0) = 2 := ⟨rfl, rfl⟩

/-- C7 amended: ZaloAdapter.disconnect is idempotent (a second call on a
shut-down adapter returns it unchanged immediately) and never throws,
swallowing transport teardown failures, and always ends with the timer
stopped, the handle released, isConnected false and the adapter marked shut
down.  TelegramAdapter.disconnect instead propagates a teardown failure out
of the call (leaving the bot handle in place), and a repeated call is not a
no-op: each successful call stamps the health record and increments
consecutiveFailures. -/
theorem C7_disconnect_behavior :
    ∀ (f f2 : Bool) (s : ZaloAdapter.ZaloState) (now : Nat)
      (t : TelegramAdapter.TgState),
      (s.isShutdown = true → ZaloAdapter.disconnect f s = Except.ok s) ∧
      (∀ e, ZaloAdapter.disconnect f s ≠ Except.error e) ∧
      (s.isShutdown = false →
        ZaloAdapter.disconnect f s =
          Except.ok (ZaloAdapter.shutdownCleanup s) ∧
        (ZaloAdapter.shutdownCleanup s).isShutdown = true ∧
        (ZaloAdapter.shutdownCleanup s).healthTimer = false ∧
        (ZaloAdapter.shutdownCleanup s).api = false ∧
        (ZaloAdapter.shutdownCleanup s).isConnected = false ∧
        (ZaloAdapter.shutdownCleanup s).health.isConnected = false ∧
        ZaloAdapter.disconnect f2 (ZaloAdapter.shutdownCleanup s) =
          Except.ok (ZaloAdapter.shutdownCleanup s)) ∧
      (t.bot = true → TelegramAdapter.disconnect now true t =
        Except.error "stopPolling failed") ∧
      (t.bot = false → ∀ s2,
        TelegramAdapter.disconnect now f t = Except.ok s2 →
        s2.health.consecutiveFailures = t.health.consecutiveFailures + 1) := by
  intro f f2 s now t
  refine ⟨fun hs => ?_, fun e => ?_, fun hs => ?_, fun hb => ?_,
          fun hb s2 h2 => ?_⟩
  · simp [ZaloAdapter.disconnect, hs]
  · cases hs : s.isShutdown <;>
      simp only [ZaloAdapter.disconnect, hs, TelegramAdapter.transportStop] <;>
      cases f <;> simp
  · refine ⟨?_, rfl, rfl, rfl, rfl, rfl, ?_⟩
    · cases f <;>
        simp [ZaloAdapter.disconnect, hs, TelegramAdapter.transportStop]
    · simp [ZaloAdapter.disconnect, ZaloAdapter.shutdownCleanup]
  · simp [TelegramAdapter.disconnect, hb, TelegramAdapter.transportStop]
  · simp only [TelegramAdapter.disconnect, hb, TelegramAdapter.transportStop,
               Bool.false_eq_true, if_false, Except.ok.injEq] at h2
    subst h2
    simp [BaseAdapter.updateHealthStatus]

/-- C7 witness: a shut-down Zalo state is returned unchanged; disconnecting
the live Telegram state succeeds and increments consecutiveFailures. -/
theorem C7_disconnect_behavior_witness :
    (ZaloAdapter.shutdownCleanup (ZaloAdapter.connectedState 3)).isShutdown =
      true ∧
    ZaloAdapter.disconnect true
        (ZaloAdapter.shutdownCleanup (ZaloAdapter.connectedState 3)) =
      Except.ok (ZaloAdapter.shutdownCleanup (ZaloAdapter.connectedState 3)) :=
  ⟨by decide,
   (C7_disconnect_behavior true false
      (ZaloAdapter.shutdownCleanup (ZaloAdapter.connectedState 3)) 0
      tgLiveState).1 (by decide)⟩

/-- A plain Telegram text message from a valid (non-bot) sender. -/
def tgTextMessage : TelegramAdapter.TelegramMessage :=
  { messageId := 2,
    fromUser := some { id := 7, isBot := false, firstName := "Ann",
                       lastName := none, username := none },
    date := 1, chatId := 77, chatType := "private",
    text := some "hi", caption := none, sticker := none, photo := false,
    document := none, audio := false, video := false, location := none }

/-- C8 counterexample: a Telegram message that passes normalization and is
forwarded carries NO metadata.threadId (the metadata holds chat_id instead)
and its reply is sent to chat.id directly, so threadId is not the reply
routing key there. -/
theorem C8_threadId_counterexample :
    TelegramAdapter.handleTelegramMessage true tgTextMessage =
      HandlerOutcome.forwarded (TelegramAdapter.buildMessage tgTextMessage)
        "77" ∧
    (TelegramAdapter.buildMessage tgTextMessage).metadata.threadId = none :=
  ⟨by decide, rfl⟩

/-- C8 amended: the Zalo adapter always populates metadata.threadId during
normalization and uses exactly that value as the reply destination of a
forwarded message; the Telegram adapter populates metadata with chat_id
(and no threadId key) and sends the reply to chat.id directly. -/
theorem C8_reply_destination :
    ∀ (cb : Bool) (m : ZaloAdapter.ZaloPayload) (now : Nat)
      (tm : TelegramAdapter.TelegramMessage),
      ((ZaloAdapter.normalizeMessage m now).metadata.threadId.isSome =
        true) ∧
      (∀ msg d, ZaloAdapter.handleZaloMessage cb m now =
          HandlerOutcome.forwarded msg d →
        msg.metadata.threadId = some d) ∧
      (∀ msg d, TelegramAdapter.handleTelegramMessage cb tm =
          HandlerOutcome.forwarded msg d →
        msg.metadata.threadId = none ∧
        msg.metadata.chatId = some tm.chatId ∧
        d = toString tm.chatId) := by
  intro cb m now tm
  refine ⟨?_, fun msg d h => ?_, fun msg d h => ?_⟩
  · cases hd : m.data <;> simp [ZaloAdapter.normalizeMessage, hd]
  · obtain ⟨-, hm, hd⟩ := zalo_forwarded_inv cb m now msg d h
    subst hm
    subst hd
    cases hdd : m.data <;>
      simp [ZaloAdapter.normalizeMessage, ZaloAdapter.replyDestination, hdd]
  · obtain ⟨-, hm, hd⟩ := telegram_forwarded_inv cb tm msg d h
    subst hm
    subst hd
    exact ⟨rfl, rfl, rfl⟩

/-- C8 witness: a forwarded envelope-shape Zalo message is replied to at
its metadata.threadId (the sender uid), and the forwarded Telegram text
message is replied to at chat.id with no threadId in its metadata. -/
theorem C8_reply_destination_witness :
    ZaloAdapter.handleZaloMessage true
        { data := some { msgId := some "5", content := some "hello",
                         uidFrom := some "u9", dName := none, ts := none },
          body := none, text := none, photo := false, file := false,
          id := none, sender := none, threadID := none, timestamp := none }
        0 =
      HandlerOutcome.forwarded
        (ZaloAdapter.normalizeMessage
          { data := some { msgId := some "5", content := some "hello",
                           uidFrom := some "u9", dName := none, ts := none },
            body := none, text := none, photo := false, file := false,
            id := none, sender := none, threadID := none, timestamp := none }
          0) "u9" ∧
    (ZaloAdapter.normalizeMessage
        { data := some { msgId := some "5", content := some "hello",
                         uidFrom := some "u9", dName := none, ts := none },
          body := none, text := none, photo := false, file := false,
          id := none, sender := none, threadID := none, timestamp := none }
        0).metadata.threadId = some "u9" :=
  ⟨by decide,
   (C8_reply_destination true
      { data := some { msgId := some "5", content := some "hello",
                       uidFrom := some "u9", dName := none, ts := none },
        body := none, text := none, photo := false, file := false,
        id := none, sender := none, threadID := none, timestamp := none }
      0 tgTextMessage).2.1 _ _ (by decide)⟩

/-- A concrete canonical message with content hi. -/
def msgHi : Message :=
  { id := "1", content := "hi", senderId := "u1", senderName := "Ann",
    timestamp := 0, platform := ChatPlatform.telegram,
    messageType := MessageType.text,
    metadata := { threadId := none, messageTypeStr := none, chatId := none,
                  chatType := none, username := none } }

/-- C9 counterexample: in echo mode the orchestrator responds with the
content prefixed by Echo and a space, not with the input content
verbatim. -/
theorem C9_echo_counterexample :
    (ChatIntegration.handleMessage true msgHi
        (Except.error "agent down")).1.content = "Echo: hi" ∧
    ("Echo: hi" : String) ≠ "hi" := by
  exact ⟨rfl, by decide⟩

/-- C9 amended: when echo mode is enabled the orchestrator short-circuits
before any agent call (the agent result is never consulted) and returns the
input content prefixed with Echo and a colon as the response content. -/
theorem C9_echo_mode :
    ∀ (msg : Message) (r : Except String ChatResponse),
      (ChatIntegration.handleMessage true msg r).2 = false ∧
      (ChatIntegration.handleMessage true msg r).1.content =
        "Echo: " ++ msg.content ∧
      (∀ r2, ChatIntegration.handleMessage true msg r =
        ChatIntegration.handleMessage true msg r2) := by
  intro msg r
  exact ⟨rfl, rfl, fun r2 => rfl⟩

/-- A Telegram message whose sender is marked as a bot. -/
def tgBotMessage : TelegramAdapter.TelegramMessage :=
  { messageId := 6,
    fromUser := some { id := 11, isBot := true, firstName := "Robo",
                       lastName := none, username := none },
    date := 1, chatId := 4, chatType := "private",
    text := some "hi", caption := none, sticker := none, photo := false,
    document := none, audio := false, video := false, location := none }

/-- C10: an inbound Telegram message whose sender has is_bot true is
silently dropped: the handler returns before normalization, so the
registered callback is never invoked and no apology is sent. -/
theorem C10_bot_messages_dropped :
    ∀ (cb : Bool) (m : TelegramAdapter.TelegramMessage)
      (u : TelegramAdapter.TgUser),
      m.fromUser = some u → u.isBot = true →
      TelegramAdapter.handleTelegramMessage cb m =
        HandlerOutcome.ignored := by
  intro cb m u hm hb
  cases cb <;> simp [TelegramAdapter.handleTelegramMessage, hm, hb]

/-- C10 witness: the concrete bot message is dropped even with a handler
registered. -/
theorem C10_bot_messages_dropped_witness :
    tgBotMessage.fromUser =
      some { id := 11, isBot := true, firstName := "Robo",
             lastName := none, username := none } ∧
    TelegramAdapter.handleTelegramMessage true tgBotMessage =
      HandlerOutcome.ignored :=
  ⟨rfl,
   C10_bot_messages_dropped true tgBotMessage
     { id := 11, isBot := true, firstName := "Robo",
       lastName := none, username := none } rfl rfl⟩

-- sanity examples (health tracker)
example :
    (BaseAdapter.updateHealthStatus
      { isConnected := true, lastHealthCheck := 0,
        consecutiveFailures := 3, lastError := some "x" } 7 true none) =
    { isConnected := true, lastHealthCheck := 7,
      consecutiveFailures := 0, lastError := none } := by decide

example :
    BaseAdapter.isHealthy
      { isConnected := true, lastHealthCheck := 0,
        consecutiveFailures := 5, lastError := none } = false := by decide
